import Mathlib

set_option autoImplicit false

/-!
Verification development for the synesthesia audio-to-image application.

The definitions below are a shallow embedding of the TypeScript source:

* `src/constants.ts`               — size bounds and the style enumeration;
* `src/services/geminiService.ts`  — `formatPromptWithFilter` and the final
  request text built by `generateImage` / `editImage`;
* `src/components/AudioInput.tsx`  — file/recording size validation;
* `src/components/CreatorStudio.tsx` — `handleGeneration` / `handleEdit`
  (single-image session);
* `src/components/VisualStoryboard.tsx` — `processFile` (storyboard pipeline);
* `src/components/LiveSynesthesia.tsx`  — `processAudioChunk`,
  `generateSummary` and the recording interval (live-capture pipeline).

Asynchronous service calls are abstracted by oracles (`Except` values
supplied as parameters): the embedding is the deterministic control flow of
the source evaluated against those outcomes.  Machine integers are `Nat`
(JavaScript numbers never approach 2^53 here); audio durations are `Rat`
(seconds, possibly fractional, as returned by the media element).
-/

/-- Constant from `src/constants.ts`: `MAX_FILE_SIZE = 20 * 1024 * 1024`. -/
def MAX_FILE_SIZE : Nat := 20 * 1024 * 1024

/-- Constant from `src/constants.ts`: `MAX_FILE_SIZE_MB = 20`. -/
def MAX_FILE_SIZE_MB : Nat := 20

/-- Constant from `src/components/VisualStoryboard.tsx`: `MIN_FILE_SIZE = 1 * 1024 * 1024`. -/
def MIN_FILE_SIZE : Nat := 1 * 1024 * 1024

/-- The style enumeration of `src/constants.ts` (`FILTERS`), as an inductive
type; `src/types.ts` defines `FilterType = typeof FILTERS[number]`. -/
inductive FilterType where
  | unspecified
  | photorealistic
  | anime
  | cartoon
  | inkSketch
  | blackAndWhite
  | colorPop
  | waterColor
  | raphaeliteOilPainting
  | darkFantasy
  | gameArt
  | comicCover
  | raphaeliteDigitalArt
deriving DecidableEq

/-- The literal string tag of each filter, exactly as listed in `FILTERS`
(`src/constants.ts`); this is the value interpolated by template strings. -/
def filterTag : FilterType → String
  | .unspecified => "unspecified"
  | .photorealistic => "photorealistic"
  | .anime => "Anime"
  | .cartoon => "cartoon"
  | .inkSketch => "ink sketch"
  | .blackAndWhite => "black & white"
  | .colorPop => "color pop"
  | .waterColor => "water color"
  | .raphaeliteOilPainting => "raphaelite oil painting"
  | .darkFantasy => "dark fantasy"
  | .gameArt => "game art"
  | .comicCover => "comic cover"
  | .raphaeliteDigitalArt => "raphaelite-digital-art"

/-- The list `FILTERS` of `src/constants.ts`, in source order. -/
def FILTERS : List FilterType :=
  [.unspecified, .photorealistic, .anime, .cartoon, .inkSketch, .blackAndWhite,
   .colorPop, .waterColor, .raphaeliteOilPainting, .darkFantasy, .gameArt,
   .comicCover, .raphaeliteDigitalArt]

/-- The `filterStyles` record literal inside `formatPromptWithFilter`
(`src/services/geminiService.ts`, lines 200-214). -/
def filterStyles : FilterType → String
  | .unspecified => ""
  | .photorealistic =>
      "ultra photorealistic style, hyper-detailed, hyper ultra realistic, real vision, realistic texture, 8k"
  | .anime => "vibrant anime style, clean line art, cel shaded"
  | .cartoon => "charming cartoon style, bold outlines, simple shapes"
  | .inkSketch => "black and white ink sketch style, cross-hatching, expressive lines"
  | .blackAndWhite => "monochromatic black and white, dramatic lighting, high contrast"
  | .colorPop => "mostly black and white with a single subject in vibrant color, selective color"
  | .waterColor => "soft watercolor painting style, blended colors, wet-on-wet technique"
  | .raphaeliteOilPainting =>
      "Pre-Raphaelite Brotherhood oil painting style, rich colors, high detail, romantic themes"
  | .raphaeliteDigitalArt =>
      "A beautiful blend of Pre-Raphaelite Brotherhood oil painting and vibrant Japanese Anime, creating a unique \"Raphaelite Digital Art\" look with rich colors, high detail, clean line art, and romantic themes."
  | .darkFantasy => "dark fantasy digital art, epic scale, moody lighting, style of ArtStation and DeviantArt"
  | .gameArt => "AAA game art style, Unreal Engine rendering, detailed character model, dynamic pose"
  | .comicCover => "dynamic comic book cover art, bold inks, graphic style, vibrant colors"

/-- The JavaScript `String.prototype.trim()`: removes whitespace from both
ends of a string (over the ASCII whitespace that occurs in this program). -/
def jsTrim (s : String) : String :=
  ⟨((s.data.dropWhile Char.isWhitespace).reverse.dropWhile Char.isWhitespace).reverse⟩

/-- Function `formatPromptWithFilter` of `src/services/geminiService.ts`, lines 196-217:
returns the prompt unchanged for the `unspecified` sentinel, and otherwise
returns `prompt.trim()` followed by one `. Style: <phrase>.` suffix. -/
def formatPromptWithFilter (prompt : String) (filter : FilterType) : String :=
  if filter = FilterType.unspecified then prompt
  else jsTrim prompt ++ ". Style: " ++ filterStyles filter ++ "."

/-- The final request text computed by `generateImage`
(`src/services/geminiService.ts`, line 221): `formatPromptWithFilter(prompt, filter)`. -/
def generateImageRequestText (prompt : String) (filter : FilterType) : String :=
  formatPromptWithFilter prompt filter

/-- The final request text computed by `editImage`
(`src/services/geminiService.ts`, line 261): `formatPromptWithFilter(prompt, filter)`. -/
def editImageRequestText (prompt : String) (filter : FilterType) : String :=
  formatPromptWithFilter prompt filter

/-- Models the JavaScript pattern `err.message || fallback` used by every
catch block: an empty message is replaced by the fallback text. -/
def jsErrMessage (msg fallback : String) : String :=
  if msg = "" then fallback else msg

/-- Models `(size / 1024 / 1024).toFixed(2)` for a byte count: megabytes
rendered with exactly two decimal digits (nearest, half away from zero). -/
def mbString2 (size : Nat) : String :=
  let hundredths := (size * 100 + 524288) / 1048576
  toString (hundredths / 100) ++ "." ++
    (if hundredths % 100 < 10 then "0" else "") ++ toString (hundredths % 100)

/-- Enumeration `AppState` of `src/types.ts`. -/
inductive AppState where
  | IDLE
  | ANALYZING
  | GENERATING
  | EDITING
  | ERROR
deriving DecidableEq

/-- Record `ImageData` of `src/types.ts`. -/
structure ImageData where
  id : Nat
  base64 : String
  prompt : String
deriving DecidableEq

/-- An armed audio source in the single-image session (a `File` value: only
its size and MIME type are observable to the modelled control flow; the
audio content itself is abstracted by the service oracles). -/
structure AudioSrc where
  size : Nat
  mime : String
deriving DecidableEq

/-- The state of the `CreatorStudio` component (`src/components/CreatorStudio.tsx`)
relevant to the generation/edit pipeline.  Transient UI-only state
(copy-to-clipboard feedback, the confirmation modal flags) is presentation
and is not part of the pipeline state. -/
structure CreatorState where
  appState : AppState
  error : Option String
  audioFile : Option AudioSrc
  textPrompt : String
  audioContext : String
  generationFilter : FilterType
  imageHistory : List ImageData
  activeImageIndex : Option Nat
deriving DecidableEq

/-- Function `handleGeneration` of `src/components/CreatorStudio.tsx`, lines 317-355,
with the two asynchronous service outcomes supplied as oracles:
`oMusic` is the result of `generatePromptFromMusic` (used only when an audio
file is armed) and `oImage` the result of `generateImage`.  `now` models
`Date.now()` at image creation. -/
def handleGeneration (now : Nat) (st : CreatorState)
    (oMusic : Except String String) (oImage : Except String String) : CreatorState :=
  -- setError(null); let finalPrompt = textPrompt;
  let st := { st with error := none }
  match st.audioFile with
  | some _ =>
    match oMusic with
    | .error e =>
        { st with error := some (jsErrMessage e ("An unknown error occurred during audio analysis.")),
                  appState := AppState.ERROR }
    | .ok finalPrompt =>
        -- setTextPrompt(finalPrompt); then fall through to the common tail
        let st := { st with textPrompt := finalPrompt }
        if jsTrim finalPrompt = "" then
          { st with error := some ("A prompt is required to generate an image. Please type one or provide an audio file."),
                    appState := AppState.IDLE }
        else
          match oImage with
          | .error e =>
              { st with error := some (jsErrMessage e ("An unknown error occurred during image generation.")),
                        appState := AppState.ERROR }
          | .ok imageBase64 =>
              { st with imageHistory := [⟨now, imageBase64, finalPrompt⟩],
                        activeImageIndex := some 0,
                        appState := AppState.IDLE }
  | none =>
    let finalPrompt := st.textPrompt
    if jsTrim finalPrompt = "" then
      { st with error := some ("A prompt is required to generate an image. Please type one or provide an audio file."),
                appState := AppState.IDLE }
    else
      match oImage with
      | .error e =>
          { st with error := some (jsErrMessage e ("An unknown error occurred during image generation.")),
                    appState := AppState.ERROR }
      | .ok imageBase64 =>
          { st with imageHistory := [⟨now, imageBase64, finalPrompt⟩],
                    activeImageIndex := some 0,
                    appState := AppState.IDLE }

/-- The cumulative prompt lineage built by `handleEdit`
(`src/components/CreatorStudio.tsx`, lines 377-379):
`let newPrompt = activeImage.prompt + "\n\n---";`
`if (filter !== unspecified) newPrompt += "\nFilter: " + filter;`
`if (editPrompt) newPrompt += "\nEdit: " + editPrompt;`. -/
def editLineage (prev : String) (editPrompt : String) (filter : FilterType) : String :=
  let newPrompt := prev ++ "\n\n---"
  let newPrompt := if filter ≠ FilterType.unspecified
    then newPrompt ++ "\nFilter: " ++ filterTag filter else newPrompt
  if editPrompt ≠ "" then newPrompt ++ "\nEdit: " ++ editPrompt else newPrompt

/-- The part of the edit lineage that follows the previous prompt: the
separator and the two optional lines. -/
def editLineageTail (editPrompt : String) (filter : FilterType) : String :=
  "\n\n---" ++
    (if filter ≠ FilterType.unspecified then "\nFilter: " ++ filterTag filter else "") ++
    (if editPrompt ≠ "" then "\nEdit: " ++ editPrompt else "")

/-- Function `handleEdit` of `src/components/CreatorStudio.tsx`, lines 357-398.
`oEdit` is the outcome of the whole asynchronous try block up to and
including `editImage` (reading an optional remix image and the edit call
itself; the remix image only alters the service request, which the oracle
abstracts).  Note the catch in the source sets `AppState.ERROR` but the finally
clause then sets `AppState.IDLE`, so the final app state is `IDLE` on both
paths.  If no history entry is active the function returns immediately. -/
def handleEdit (now : Nat) (st : CreatorState) (editPrompt : String)
    (filter : FilterType) (oEdit : Except String String) : CreatorState :=
  match st.activeImageIndex.bind (fun i => st.imageHistory[i]?) with
  | none => st
  | some activeImage =>
    let st := { st with error := none }
    match oEdit with
    | .error e =>
        { st with error := some (jsErrMessage e ("An unknown error occurred during image editing.")),
                  appState := AppState.IDLE }
    | .ok newImageBase64 =>
        let newImage : ImageData := ⟨now, newImageBase64, editLineage activeImage.prompt editPrompt filter⟩
        let newHistory := st.imageHistory ++ [newImage]
        { st with imageHistory := newHistory,
                  activeImageIndex := some (newHistory.length - 1),
                  appState := AppState.IDLE }

/-- Outcome of the `AudioInput` validation handlers
(`src/components/AudioInput.tsx`): either an error message is reported via
`onError` and nothing is armed, or the file is delivered to the parent
callback.  These handlers make no service calls at all. -/
structure AudioInputResult where
  error : Option String
  selected : Option AudioSrc
deriving DecidableEq

/-- Function `handleFileChange` of `AudioInput` (`src/components/AudioInput.tsx`,
lines 35-47): files above `MAX_FILE_SIZE` are rejected with a message
containing the offending size in MB (two decimals) and the bound; in-range
files are delivered to `onAudioFileSelected`. -/
def audioInputHandleFileChange (file : AudioSrc) : AudioInputResult :=
  if MAX_FILE_SIZE < file.size then
    { error := some ("File is too large (" ++ mbString2 file.size ++ "MB). Max size is " ++
        toString MAX_FILE_SIZE_MB ++ "MB."),
      selected := none }
  else
    { error := none, selected := some file }

/-- Function `handleRecordingDone` of `AudioInput` (`src/components/AudioInput.tsx`,
lines 23-31): same bound, recording-specific message, delivered to
`onRecordingComplete`. -/
def audioInputHandleRecordingDone (file : AudioSrc) : AudioInputResult :=
  if MAX_FILE_SIZE < file.size then
    { error := some ("Recording is too large (" ++ mbString2 file.size ++ "MB). Max size is " ++
        toString MAX_FILE_SIZE_MB ++ "MB."),
      selected := none }
  else
    { error := none, selected := some file }

/-- Enumeration `StoryboardState` of `src/components/VisualStoryboard.tsx`, line 12. -/
inductive StoryboardState where
  | IDLE
  | PROCESSING
  | FINISHED
  | ERROR
deriving DecidableEq

/-- Record `StoryboardImage` of `src/components/VisualStoryboard.tsx`, lines 15-17:
`ImageData` extended with a `fileName`. -/
structure StoryboardImage where
  id : Nat
  base64 : String
  prompt : String
  fileName : String
deriving DecidableEq

/-- The segment-count selection of `processFile`
(`src/components/VisualStoryboard.tsx`, lines 81-85):
`if (duration >= 30 * 60) numSegments = 7;`
`else if (duration > 5 * 60) numSegments = 5;`
`else if (duration > 2 * 60) numSegments = 4;`
`else numSegments = 3;`
Duration is in seconds, possibly fractional. -/
def numSegments (duration : ℚ) : Nat :=
  if 30 * 60 ≤ duration then 7
  else if 5 * 60 < duration then 5
  else if 2 * 60 < duration then 4
  else 3

/-- Models the JavaScript expression padding a number to two digits with a
leading zero character, used for the scene filenames. -/
def pad2 (n : Nat) : String :=
  if n < 10 then "0" ++ toString n else toString n

/-- The byte ranges produced by the `file.slice` loop of `processFile`
(`src/components/VisualStoryboard.tsx`, lines 87-93): `n` contiguous
half-open ranges of `segmentSize = floor(size / n)` bytes each, the last
segment absorbing the remainder up to `size`. -/
def segmentRanges (size n : Nat) : List (Nat × Nat) :=
  let segmentSize := size / n
  (List.range n).map (fun i =>
    (i * segmentSize, if i = n - 1 then size else i * segmentSize + segmentSize))

/-- Service oracles for one storyboard run: `segPrompt range k` is the
outcome of `generatePromptFromAudioSegment` for the segment with byte range
`range` and 1-based number `k`; `segImage k` the outcome of `generateImage`
for the prompt of that segment; `duration` the outcome of `getAudioDuration`
(its rejection value is a bare string whose `.message` is undefined, hence
modelled as `Except Unit`); `summary` the outcome of
`generateStorySummaryFromAudio` on the full file. -/
structure SbOracle where
  duration : Except Unit ℚ
  segPrompt : Nat × Nat → Nat → Except String String
  segImage : Nat → Except String String
  summary : Except String String

/-- Result of the per-segment loop of `processFile`
(`src/components/VisualStoryboard.tsx`, lines 96-115): the images appended
so far (each `setImages` call keeps earlier segments on failure), the number
of service calls issued, and the first error if any segment failed.
`now` models `Date.now()` (image ids are `now + i`). -/
def runSegments (now : Nat) (o : SbOracle) : List (Nat × (Nat × Nat)) →
    List StoryboardImage × Nat × Option String
  | [] => ([], 0, none)
  | (i, range) :: rest =>
    match o.segPrompt range (i + 1) with
    | .error e => ([], 1, some e)
    | .ok prompt =>
      match o.segImage (i + 1) with
      | .error e => ([], 2, some e)
      | .ok imageBase64 =>
        let newImage : StoryboardImage :=
          ⟨now + i, imageBase64, prompt, "scene_" ++ pad2 (i + 1) ++ ".jpg"⟩
        let (imgs, calls, err) := runSegments now o rest
        (newImage :: imgs, 2 + calls, err)

/-- Final observable outcome of one `processFile` run: component state,
error message, accumulated images and summary, plus the number of
generative-service calls issued (`generatePromptFromAudioSegment`,
`generateImage`, `generateStorySummaryFromAudio`; `fileToBase64` and the
duration probe are local, not network calls). -/
structure SbResult where
  state : StoryboardState
  error : Option String
  images : List StoryboardImage
  summary : String
  networkCalls : Nat
deriving DecidableEq

/-- The tail of `processFile` once the segment count has been selected
(`src/components/VisualStoryboard.tsx`, lines 87-127): slicing, the
per-segment loop, and the whole-file summary; a thrown error transitions to
`ERROR`, keeping the images appended so far. -/
def processSegmentsAndSummary (now : Nat) (file : AudioSrc) (o : SbOracle) (n : Nat) : SbResult :=
  let segs := segmentRanges file.size n
  let (imgs, calls, err) := runSegments now o (List.zip (List.range n) segs)
  match err with
  | some e =>
    { state := StoryboardState.ERROR,
      error := some (jsErrMessage e ("An unknown error occurred during processing.")),
      images := imgs, summary := "", networkCalls := calls }
  | none =>
    match o.summary with
    | .error e =>
      { state := StoryboardState.ERROR,
        error := some (jsErrMessage e ("An unknown error occurred during processing.")),
        images := imgs, summary := "", networkCalls := calls + 1 }
    | .ok storySummary =>
      { state := StoryboardState.FINISHED,
        error := none,
        images := imgs, summary := storySummary, networkCalls := calls + 1 }

/-- Function `processFile` of `src/components/VisualStoryboard.tsx`, lines 61-128:
size validation, duration probe, segment-count selection, then the segment
loop and summary.  The rejection value of the duration probe is a bare
string (not an Error object), so `err.message` is undefined and the catch
shows the generic fallback. -/
def processFile (now : Nat) (file : AudioSrc) (o : SbOracle) : SbResult :=
  if file.size < MIN_FILE_SIZE then
    { state := StoryboardState.ERROR,
      error := some ("File is too small. Minimum size is 1MB."),
      images := [], summary := "", networkCalls := 0 }
  else if MAX_FILE_SIZE < file.size then
    { state := StoryboardState.ERROR,
      error := some ("File is too large. Maximum size is " ++ toString MAX_FILE_SIZE_MB ++ "MB."),
      images := [], summary := "", networkCalls := 0 }
  else
    match o.duration with
    | .error _ =>
      { state := StoryboardState.ERROR,
        error := some ("An unknown error occurred during processing."),
        images := [], summary := "", networkCalls := 0 }
    | .ok duration =>
      processSegmentsAndSummary now file o (numSegments duration)

/-- Enumeration `LiveState` of `src/components/LiveSynesthesia.tsx`, line 13. -/
inductive LiveState where
  | CONFIG
  | RECORDING
  | GENERATING
  | FINISHED
  | ERROR
deriving DecidableEq

/-- Record `LiveImageData` of `src/components/LiveSynesthesia.tsx`, lines 16-18. -/
structure LiveImageData where
  id : Nat
  base64 : String
  prompt : String
  fileName : String
deriving DecidableEq

/-- One blob delivered by `MediaRecorder.ondataavailable` and pushed into
`audioChunksRef.current`.  The `id` is a ghost identifier (chunks are
assigned consecutive ids as they arrive) used to reason about which bytes
end up in which extraction; `size` is `event.data.size`. -/
structure Chunk where
  id : Nat
  size : Nat
deriving DecidableEq

/-- Models `new Blob(chunks).size`: total byte size of a concatenated chunk list. -/
def blobSize (chunks : List Chunk) : Nat :=
  (chunks.map Chunk.size).sum

/-- State of the `LiveSynesthesia` recording loop
(`src/components/LiveSynesthesia.tsx`).

Mutable refs (`audioChunksRef`, `isProcessingRef`) are always read fresh:
they are modelled as ordinary fields.  React *state* read inside the
interval callback is different: the interval is installed once by the
effect with dependency list `[liveState, interval]` (line 134), so the
`processAudioChunk` closure it calls forever is the one from the render in
which recording started; the `generatedImages` value that closure sees is
frozen at that render.  `snapshotLen` records that frozen length (0 at the
start of a run, after `startFlow` cleared the list).  `setGeneratedImages`
uses a functional update (line 113), so appends themselves are not stale.

`inflight` holds the data of a tick whose asynchronous processing has
started but not yet settled: the extracted blob and the `imageIndex`
computed synchronously at line 97.  `extracted` is a ghost trace of every
blob ever removed from the buffer (including sub-1KB blobs that are
discarded without being sent).  `nextId` is the ghost id source for
arriving chunks.  The transient `currentStatus` progress text and the
per-second countdown timer are presentation only and are not modelled. -/
structure LiveSt where
  liveState : LiveState
  error : Option String
  buffer : List Chunk
  isProcessing : Bool
  inflight : Option (List Chunk × Nat)
  generatedImages : List LiveImageData
  snapshotLen : Nat
  totalTarget : Nat
  summaryRef : Option String
  nextId : Nat
  extracted : List (List Chunk)
deriving DecidableEq

/-- Events interleaved during the `RECORDING` state: a recorder data
delivery, a firing of the processing interval (the synchronous part of
`processAudioChunk`, up to its first await), and the settling of the
in-flight asynchronous processing (`generateLivePrompt` + `generateImage`;
`.ok (prompt, imageBase64)` or the first thrown error).  `now` models
`Date.now()` at image construction. -/
inductive LiveEv where
  | push (size : Nat)
  | tick
  | complete (now : Nat) (res : Except String (String × String))

/-- Handler `mediaRecorder.ondataavailable` of `src/components/LiveSynesthesia.tsx`,
lines 57-61): a blob is appended to `audioChunksRef.current` only when its
size is positive. -/
def livePush (s : LiveSt) (size : Nat) : LiveSt :=
  if 0 < size then
    { s with buffer := s.buffer ++ [⟨s.nextId, size⟩], nextId := s.nextId + 1 }
  else s

/-- The synchronous prefix of `processAudioChunk`
(`src/components/LiveSynesthesia.tsx`, lines 83-98), executed atomically
when the interval fires: if a previous tick is still processing or the
buffer is empty, return with no effect at all; otherwise concatenate the
buffered chunks into one blob, clear the buffer, discard the blob if it is
under 1024 bytes (releasing the flag), and otherwise mark processing
in flight together with `imageIndex = generatedImages.length + 1` computed
from the stale closure snapshot. -/
def liveTick (s : LiveSt) : LiveSt :=
  if s.isProcessing = true ∨ s.buffer = [] then s
  else
    let audioBlob := s.buffer
    if blobSize audioBlob < 1024 then
      { s with buffer := [], isProcessing := false,
               extracted := s.extracted ++ [audioBlob] }
    else
      { s with buffer := [], isProcessing := true,
               inflight := some (audioBlob, s.snapshotLen + 1),
               extracted := s.extracted ++ [audioBlob] }

/-- The continuation of `processAudioChunk` after its awaits settle
(`src/components/LiveSynesthesia.tsx`, lines 100-119), including the
completion-watching effect at lines 147-152: on success the image is
appended (functional update) with filename `image_<imageIndex>.jpeg`, and
if the running count reaches the target while recording, the state advances
to `GENERATING`; on failure the error is swallowed (nothing is set); the
finally clause releases the in-flight flag on both paths. -/
def liveComplete (s : LiveSt) (now : Nat)
    (res : Except String (String × String)) : LiveSt :=
  match s.inflight with
  | none => s
  | some (_, imageIndex) =>
    match res with
    | .error _ =>
        { s with isProcessing := false, inflight := none }
    | .ok (prompt, imageBase64) =>
        let newImage : LiveImageData :=
          ⟨now, imageBase64, prompt, "image_" ++ toString imageIndex ++ ".jpeg"⟩
        let images := s.generatedImages ++ [newImage]
        { s with generatedImages := images,
                 isProcessing := false, inflight := none,
                 liveState :=
                   if s.liveState = LiveState.RECORDING ∧ s.totalTarget ≤ images.length
                   then LiveState.GENERATING else s.liveState }

/-- One interleaving step of the recording loop. -/
def liveStep (s : LiveSt) : LiveEv → LiveSt
  | .push size => livePush s size
  | .tick => liveTick s
  | .complete now res => liveComplete s now res

/-- A run of the recording loop over a list of events. -/
def liveRun (s : LiveSt) : List LiveEv → LiveSt
  | [] => s
  | e :: evs => liveRun (liveStep s e) evs

/-- The live-pipeline state at the moment recording starts (`startFlow`
cleared errors and images, the effect installed the interval; the closure
snapshot of `generatedImages` is the empty list of that render). -/
def liveStart (totalTarget : Nat) : LiveSt :=
  { liveState := LiveState.RECORDING, error := none, buffer := [],
    isProcessing := false, inflight := none, generatedImages := [],
    snapshotLen := 0, totalTarget := totalTarget, summaryRef := none,
    nextId := 0, extracted := [] }

/-- Function `generateSummary` of `src/components/LiveSynesthesia.tsx`, lines 191-208,
run once on entering `GENERATING`: with no images it finishes immediately;
otherwise `res` is the outcome of `generateSummaryMarkdown`; on failure a
warning is shown and the placeholder text is substituted; the finally
clause reaches `FINISHED` on every path. -/
def generateSummary (s : LiveSt) (res : Except String String) : LiveSt :=
  if s.generatedImages = [] then
    { s with liveState := LiveState.FINISHED }
  else
    match res with
    | .ok summary =>
        { s with summaryRef := some summary, liveState := LiveState.FINISHED }
    | .error _ =>
        { s with error := some ("Could not generate summary. You can still download the images."),
                 summaryRef := some ("Summary generation failed."),
                 liveState := LiveState.FINISHED }

/-- Ghost ids of a chunk list. -/
def chunkIds (b : List Chunk) : List Nat :=
  b.map Chunk.id

/-- Pairwise disjointness (by chunk id) of a list of extracted blobs: no
chunk of buffered audio belongs to two extractions. -/
def chunksDisjoint (l : List (List Chunk)) : Prop :=
  l.Pairwise (fun a b => ∀ i ∈ chunkIds a, i ∉ chunkIds b)

/-- Invariant of the recording loop used to establish that extractions
never overlap: buffered ids are distinct and below the id source, extracted
ids are below the id source and absent from the buffer, and extracted blobs
are pairwise disjoint. -/
structure LiveInv (s : LiveSt) : Prop where
  nodupBuf : (chunkIds s.buffer).Nodup
  bufLt : ∀ i ∈ chunkIds s.buffer, i < s.nextId
  extLt : ∀ b ∈ s.extracted, ∀ i ∈ chunkIds b, i < s.nextId
  bufExt : ∀ b ∈ s.extracted, ∀ i ∈ chunkIds b, i ∉ chunkIds s.buffer
  disj : chunksDisjoint s.extracted

/-- Whether an event is a firing of the processing interval. -/
def isTickEv : LiveEv → Bool
  | LiveEv.tick => true
  | _ => false

/-- Boolean substring test (used to state what an error message does not
report). -/
def strContains (s pat : String) : Bool :=
  (List.range (s.data.length + 1)).any (fun i => pat.data.isPrefixOf (s.data.drop i))

/-- A storyboard oracle where the duration probe yields 200 s, every
segment interpretation and image generation succeeds, and the final
summarization fails. -/
def sbDemoOracle : SbOracle :=
  { duration := Except.ok 200,
    segPrompt := fun _ _ => Except.ok ("p"),
    segImage := fun _ => Except.ok ("i"),
    summary := Except.error ("boom") }

/-- A single-image session holding one root image with prompt `base`,
selected. -/
def editDemoState : CreatorState :=
  { appState := AppState.IDLE, error := none, audioFile := none,
    textPrompt := "", audioContext := "", generationFilter := FilterType.unspecified,
    imageHistory := [⟨0, "img", "base"⟩], activeImageIndex := some 0 }

/-- An idle single-image session with a typed text prompt, no armed audio
source and an empty history. -/
def idleDemoState : CreatorState :=
  { appState := AppState.IDLE, error := none, audioFile := none,
    textPrompt := "a sunny meadow", audioContext := "",
    generationFilter := FilterType.unspecified,
    imageHistory := [], activeImageIndex := none }

/-- A live-pipeline state in the middle of processing a tick: one chunk in
flight, one fresh chunk buffered. -/
def liveBusyDemo : LiveSt :=
  { liveState := LiveState.RECORDING, error := none,
    buffer := [⟨1, 2000⟩], isProcessing := true,
    inflight := some ([⟨0, 2048⟩], 1), generatedImages := [],
    snapshotLen := 0, totalTarget := 5, summaryRef := none,
    nextId := 2, extracted := [[⟨0, 2048⟩]] }

/-- A live-pipeline state entering summarization with one captured image. -/
def liveOneImageDemo : LiveSt :=
  { liveState := LiveState.GENERATING, error := none, buffer := [],
    isProcessing := false, inflight := none,
    generatedImages := [⟨10, "i1", "p1", "image_1.jpeg"⟩],
    snapshotLen := 0, totalTarget := 1, summaryRef := none,
    nextId := 1, extracted := [[⟨0, 2048⟩]] }

/-- The events of one skipped interval: a recorder delivery while the
previous processing is still in flight, then that processing failing. -/
def liveSkipDemoEvs : List LiveEv :=
  [LiveEv.push 500, LiveEv.complete 9 (Except.error ("e"))]

/-- The event trace of a live run in which two consecutive ticks each
extract a 2 KB chunk and both generations succeed. -/
def liveTwoTickTrace : List LiveEv :=
  [LiveEv.push 2048, LiveEv.tick, LiveEv.complete 10 (Except.ok ("p1", "i1")),
   LiveEv.push 2048, LiveEv.tick, LiveEv.complete 20 (Except.ok ("p2", "i2"))]

/-- The per-segment loop returns one image per list element and no error
when every interpretation and generation call succeeds. -/
theorem runSegments_all_ok (now : Nat) (o : SbOracle)
    (hp : ∀ r k, ∃ p, o.segPrompt r k = Except.ok p)
    (hi : ∀ k, ∃ im, o.segImage k = Except.ok im) :
    ∀ l : List (Nat × (Nat × Nat)),
      (runSegments now o l).1.length = l.length ∧ (runSegments now o l).2.2 = none := by
  intro l
  induction l with
  | nil => simp [runSegments]
  | cons hd tl ih =>
    obtain ⟨i, range⟩ := hd
    obtain ⟨p, hp1⟩ := hp range (i + 1)
    obtain ⟨im, hi1⟩ := hi (i + 1)
    simp [runSegments, hp1, hi1, ih]

/-- Slicing a file into `n` segments yields `n` byte ranges. -/
theorem segmentRanges_length (size n : Nat) :
    (segmentRanges size n).length = n := by
  simp [segmentRanges]

/-- With every segment call succeeding, the storyboard tail produces exactly
`n` images, and a failing summary drives the component to `ERROR`. -/
theorem processSegmentsAndSummary_all_ok (now : Nat) (file : AudioSrc) (o : SbOracle) (n : Nat)
    (hp : ∀ r k, ∃ p, o.segPrompt r k = Except.ok p)
    (hi : ∀ k, ∃ im, o.segImage k = Except.ok im) :
    (processSegmentsAndSummary now file o n).images.length = n ∧
    (∀ msg, o.summary = Except.error msg →
      (processSegmentsAndSummary now file o n).state = StoryboardState.ERROR) := by
  have h := runSegments_all_ok now o hp hi (List.zip (List.range n) (segmentRanges file.size n))
  rcases hrun : runSegments now o (List.zip (List.range n) (segmentRanges file.size n))
    with ⟨imgs, calls, err⟩
  rw [hrun] at h
  simp only at h
  obtain ⟨hlen, herr⟩ := h
  subst herr
  constructor
  · cases hsum : o.summary with
    | error msg => simp [processSegmentsAndSummary, hrun, hsum, hlen, segmentRanges_length]
    | ok s => simp [processSegmentsAndSummary, hrun, hsum, hlen, segmentRanges_length]
  · intro msg hsum
    simp [processSegmentsAndSummary, hrun, hsum]

/-- An in-bounds file with a readable duration reaches the segment loop with
the duration-selected segment count. -/
theorem processFile_valid (now : Nat) (file : AudioSrc) (o : SbOracle) (d : ℚ)
    (hmin : MIN_FILE_SIZE ≤ file.size) (hmax : file.size ≤ MAX_FILE_SIZE)
    (hdur : o.duration = Except.ok d) :
    processFile now file o = processSegmentsAndSummary now file o (numSegments d) := by
  unfold processFile
  rw [if_neg (Nat.not_lt.mpr hmin), if_neg (Nat.not_lt.mpr hmax), hdur]

/-- The edit lineage is the previous prompt followed by the tail. -/
theorem editLineage_eq_append (prev e : String) (f : FilterType) :
    editLineage prev e f = prev ++ editLineageTail e f := by
  unfold editLineage editLineageTail
  split_ifs <;> simp only [String.append_assoc, String.append_empty]

/-- A tick that finds the in-flight flag set leaves the state untouched. -/
theorem liveTick_busy (s : LiveSt) (h : s.isProcessing = true) : liveTick s = s := by
  simp [liveTick, h]

/-- The extraction invariant holds at the start of recording. -/
theorem liveInv_start (t : Nat) : LiveInv (liveStart t) := by
  constructor <;> simp [liveStart, chunkIds, chunksDisjoint]

/-- A recorder delivery preserves the extraction invariant. -/
theorem liveInv_push (s : LiveSt) (inv : LiveInv s) (size : Nat) :
    LiveInv (livePush s size) := by
  unfold livePush
  split_ifs with h
  · obtain ⟨nodupBuf, bufLt, extLt, bufExt, disj⟩ := inv
    refine ⟨?_, ?_, ?_, ?_, ?_⟩
    · simp only [chunkIds, List.map_append, List.map_cons, List.map_nil]
      rw [List.nodup_append]
      refine ⟨nodupBuf, List.nodup_singleton _, ?_⟩
      intro x hx hx'
      simp at hx'
      subst hx'
      exact absurd (bufLt _ hx) (lt_irrefl _)
    · intro i hi
      simp only [chunkIds, List.map_append, List.map_cons, List.map_nil, List.mem_append,
        List.mem_singleton] at hi
      rcases hi with hi | hi
      · exact Nat.lt_succ_of_lt (bufLt i hi)
      · simp [hi]
    · intro b hb i hi
      exact Nat.lt_succ_of_lt (extLt b hb i hi)
    · intro b hb i hi
      simp only [chunkIds, List.map_append, List.map_cons, List.map_nil, List.mem_append,
        List.mem_singleton]
      push_neg
      refine ⟨bufExt b hb i hi, ?_⟩
      intro hEq
      exact absurd (extLt b hb i hi) (by simp [hEq])
    · exact disj
  · exact inv

/-- A tick preserves the extraction invariant: an extraction moves the whole
buffer, whose ids are fresh relative to every earlier extraction. -/
theorem liveInv_tick (s : LiveSt) (inv : LiveInv s) : LiveInv (liveTick s) := by
  by_cases h1 : s.isProcessing = true ∨ s.buffer = []
  · unfold liveTick
    rw [if_pos h1]
    exact inv
  · obtain ⟨nodupBuf, bufLt, extLt, bufExt, disj⟩ := inv
    have hext : ∀ b ∈ s.extracted ++ [s.buffer], ∀ i ∈ chunkIds b, i < s.nextId := by
      intro b hb i hi
      rcases List.mem_append.mp hb with hb | hb
      · exact extLt b hb i hi
      · rw [List.mem_singleton] at hb
        subst hb
        exact bufLt i hi
    have hdisj : chunksDisjoint (s.extracted ++ [s.buffer]) := by
      unfold chunksDisjoint at disj ⊢
      rw [List.pairwise_append]
      refine ⟨disj, List.pairwise_singleton _ _, ?_⟩
      intro a ha b hb i hi
      rw [List.mem_singleton] at hb
      subst hb
      exact bufExt a ha i hi
    unfold liveTick
    rw [if_neg h1]
    dsimp only
    split_ifs with h2
    · exact ⟨by simp [chunkIds], by simp [chunkIds], hext, by simp [chunkIds], hdisj⟩
    · exact ⟨by simp [chunkIds], by simp [chunkIds], hext, by simp [chunkIds], hdisj⟩

/-- Settling the in-flight processing preserves the extraction invariant. -/
theorem liveInv_complete (s : LiveSt) (inv : LiveInv s) (now : Nat)
    (res : Except String (String × String)) : LiveInv (liveComplete s now res) := by
  obtain ⟨nodupBuf, bufLt, extLt, bufExt, disj⟩ := inv
  unfold liveComplete
  cases s.inflight with
  | none => exact ⟨nodupBuf, bufLt, extLt, bufExt, disj⟩
  | some pair =>
    obtain ⟨blob, imageIndex⟩ := pair
    cases res with
    | error e => exact ⟨nodupBuf, bufLt, extLt, bufExt, disj⟩
    | ok pr =>
      obtain ⟨prompt, imageBase64⟩ := pr
      exact ⟨nodupBuf, bufLt, extLt, bufExt, disj⟩

/-- Every event of the recording loop preserves the extraction invariant. -/
theorem liveInv_step (s : LiveSt) (inv : LiveInv s) (e : LiveEv) :
    LiveInv (liveStep s e) := by
  cases e with
  | push size => exact liveInv_push s inv size
  | tick => exact liveInv_tick s inv
  | complete now res => exact liveInv_complete s inv now res

/-- The extraction invariant holds after any run of the recording loop. -/
theorem liveInv_run (s : LiveSt) (inv : LiveInv s) (evs : List LiveEv) :
    LiveInv (liveRun s evs) := by
  induction evs generalizing s with
  | nil => exact inv
  | cons e evs ih => exact ih (liveStep s e) (liveInv_step s inv e)

/-- A run with no tick event only appends to the buffer and changes neither
the closure snapshot nor the extraction trace. -/
theorem liveRun_no_tick_buffer (s : LiveSt) (evs : List LiveEv)
    (hevs : ∀ e ∈ evs, isTickEv e = false) :
    ∃ newc, (liveRun s evs).buffer = s.buffer ++ newc ∧
      (liveRun s evs).snapshotLen = s.snapshotLen ∧
      (liveRun s evs).extracted = s.extracted := by
  induction evs generalizing s with
  | nil => exact ⟨[], by simp [liveRun], rfl, rfl⟩
  | cons e evs ih =>
    have hrest : ∀ x ∈ evs, isTickEv x = false := fun x hx => hevs x (List.mem_cons_of_mem e hx)
    obtain ⟨newc, h1, h2, h3⟩ := ih (liveStep s e) hrest
    cases e with
    | push size =>
      simp only [liveRun, liveStep] at h1 h2 h3 ⊢
      by_cases hs : 0 < size
      · refine ⟨⟨s.nextId, size⟩ :: newc, ?_, ?_, ?_⟩
        · rw [h1]
          simp [livePush, hs]
        · rw [h2]
          simp [livePush, hs]
        · rw [h3]
          simp [livePush, hs]
      · refine ⟨newc, ?_, ?_, ?_⟩
        · rw [h1]
          simp [livePush, hs]
        · rw [h2]
          simp [livePush, hs]
        · rw [h3]
          simp [livePush, hs]
    | tick =>
      exact absurd (hevs LiveEv.tick (List.mem_cons_self _ _)) (by simp [isTickEv])
    | complete now res =>
      have hbuf : (liveComplete s now res).buffer = s.buffer ∧
          (liveComplete s now res).snapshotLen = s.snapshotLen ∧
          (liveComplete s now res).extracted = s.extracted := by
        unfold liveComplete
        rcases s.inflight with _ | ⟨blob, imageIndex⟩
        · exact ⟨rfl, rfl, rfl⟩
        · rcases res with e | ⟨prompt, img⟩
          · exact ⟨rfl, rfl, rfl⟩
          · exact ⟨rfl, rfl, rfl⟩
      simp only [liveRun, liveStep] at h1 h2 h3 ⊢
      refine ⟨newc, ?_, ?_, ?_⟩
      · rw [h1, hbuf.1]
      · rw [h2, hbuf.2.1]
      · rw [h3, hbuf.2.2]

/-- C1: for every audio file accepted by the storyboard pipeline (in-bounds
size, readable duration `d`, all segment calls succeeding), the number of
generated images equals `numSegments d`, a pure function of the duration
with thresholds 1800 s → 7, over 300 s → 5, over 120 s → 4, else 3, and the
boundary values 120 → 3, 121 → 4, 300 → 4, 301 → 5, 1799 → 5, 1800 → 7. -/
theorem storyboard_segment_count (now : Nat) (file : AudioSrc) (o : SbOracle) (d : ℚ)
    (hmin : MIN_FILE_SIZE ≤ file.size) (hmax : file.size ≤ MAX_FILE_SIZE)
    (hdur : o.duration = Except.ok d)
    (hp : ∀ r k, ∃ p, o.segPrompt r k = Except.ok p)
    (hi : ∀ k, ∃ im, o.segImage k = Except.ok im) :
    (processFile now file o).images.length = numSegments d ∧
    (1800 ≤ d → numSegments d = 7) ∧
    (300 < d → d < 1800 → numSegments d = 5) ∧
    (120 < d → d ≤ 300 → numSegments d = 4) ∧
    (d ≤ 120 → numSegments d = 3) ∧
    numSegments 120 = 3 ∧ numSegments 121 = 4 ∧ numSegments 300 = 4 ∧
    numSegments 301 = 5 ∧ numSegments 1799 = 5 ∧ numSegments 1800 = 7 := by
  refine ⟨?_, ?_, ?_, ?_, ?_, ?_, ?_, ?_, ?_, ?_, ?_⟩
  · rw [processFile_valid now file o d hmin hmax hdur]
    exact (processSegmentsAndSummary_all_ok now file o (numSegments d) hp hi).1
  · intro h
    unfold numSegments
    rw [if_pos (by norm_num; linarith)]
  · intro h1 h2
    unfold numSegments
    rw [if_neg (by norm_num; linarith), if_pos (by norm_num; linarith)]
  · intro h1 h2
    unfold numSegments
    rw [if_neg (by norm_num; linarith), if_neg (by norm_num; linarith),
        if_pos (by norm_num; linarith)]
  · intro h
    unfold numSegments
    rw [if_neg (by norm_num; linarith), if_neg (by norm_num; linarith),
        if_neg (by norm_num; linarith)]
  all_goals norm_num [numSegments]

/-- C1 witness: a 2 MB file with duration 200 s yields `numSegments 200 = 4`
images. -/
theorem storyboard_segment_count_witness :
    (processFile 0 ⟨2097152, "audio/mpeg"⟩ sbDemoOracle).images.length = numSegments 200 ∧
    numSegments 200 = 4 :=
  ⟨(storyboard_segment_count 0 ⟨2097152, "audio/mpeg"⟩ sbDemoOracle 200
      (by norm_num [MIN_FILE_SIZE]) (by norm_num [MAX_FILE_SIZE]) rfl
      (fun r k => ⟨"p", rfl⟩) (fun k => ⟨"i", rfl⟩)).1,
   by norm_num [numSegments]⟩

/-- C2 counterexample: for a prompt with trailing whitespace and a
non-`unspecified` style, the formatted prompt is not the prompt followed by
the suffix — the source trims the prompt first. -/
theorem style_suffix_not_plain_append_cex :
    formatPromptWithFilter "a " FilterType.photorealistic ≠
      "a " ++ ". Style: " ++ filterStyles FilterType.photorealistic ++ "." := by
  decide

/-- C2 amended: the `unspecified` style returns the prompt byte-for-byte
unchanged; any other style returns the whitespace-trimmed prompt followed by
exactly one `. Style: <phrase>.` suffix, with the phrase drawn from the
single `filterStyles` mapping shared by `generateImage` and `editImage`. -/
theorem style_suffix_amended (p : String) (f : FilterType) :
    formatPromptWithFilter p FilterType.unspecified = p ∧
    (f ≠ FilterType.unspecified →
      formatPromptWithFilter p f = jsTrim p ++ ". Style: " ++ filterStyles f ++ ".") ∧
    generateImageRequestText p f = formatPromptWithFilter p f ∧
    editImageRequestText p f = formatPromptWithFilter p f := by
  refine ⟨by simp [formatPromptWithFilter], ?_, rfl, rfl⟩
  intro h
  simp [formatPromptWithFilter, h]

/-- C2 witness: the amended statement evaluated at a concrete prompt and the
Anime style. -/
theorem style_suffix_amended_witness :
    formatPromptWithFilter "a " FilterType.unspecified = "a " ∧
    formatPromptWithFilter "a " FilterType.anime =
      jsTrim "a " ++ ". Style: " ++ filterStyles FilterType.anime ++ "." :=
  ⟨(style_suffix_amended "a " FilterType.anime).1,
   (style_suffix_amended "a " FilterType.anime).2.1 (by decide)⟩

/-- C3 counterexample: a storyboard run in which every segment succeeds (four
images are produced) and only the final summarization fails ends in the
`ERROR` state, not `FINISHED` — the storyboard has no placeholder path. -/
theorem storyboard_summary_failure_cex :
    (processFile 0 ⟨2097152, "audio/mpeg"⟩ sbDemoOracle).images.length = 4 ∧
    (processFile 0 ⟨2097152, "audio/mpeg"⟩ sbDemoOracle).state = StoryboardState.ERROR ∧
    (processFile 0 ⟨2097152, "audio/mpeg"⟩ sbDemoOracle).state ≠ StoryboardState.FINISHED := by
  have he : processFile 0 ⟨2097152, "audio/mpeg"⟩ sbDemoOracle =
      processSegmentsAndSummary 0 ⟨2097152, "audio/mpeg"⟩ sbDemoOracle 4 := by
    rw [processFile_valid 0 ⟨2097152, "audio/mpeg"⟩ sbDemoOracle 200
      (by norm_num [MIN_FILE_SIZE]) (by norm_num [MAX_FILE_SIZE]) rfl]
    norm_num [numSegments]
  rw [he]
  decide

/-- C3 amended: summary failure is non-fatal only in the live-capture
pipeline, which still reaches `FINISHED` with the placeholder text and a
warning; in the storyboard pipeline a summarization failure after fully
successful image generation transitions to `ERROR`. -/
theorem summary_failure_amended (s : LiveSt) (e : String) (himgs : s.generatedImages ≠ [])
    (now : Nat) (file : AudioSrc) (o : SbOracle) (d : ℚ) (msg : String)
    (hmin : MIN_FILE_SIZE ≤ file.size) (hmax : file.size ≤ MAX_FILE_SIZE)
    (hdur : o.duration = Except.ok d)
    (hp : ∀ r k, ∃ p, o.segPrompt r k = Except.ok p)
    (hi : ∀ k, ∃ im, o.segImage k = Except.ok im)
    (hsum : o.summary = Except.error msg) :
    (generateSummary s (Except.error e)).liveState = LiveState.FINISHED ∧
    (generateSummary s (Except.error e)).summaryRef = some ("Summary generation failed.") ∧
    (generateSummary s (Except.error e)).error =
      some ("Could not generate summary. You can still download the images.") ∧
    (processFile now file o).state = StoryboardState.ERROR := by
  refine ⟨by simp [generateSummary, himgs], by simp [generateSummary, himgs],
          by simp [generateSummary, himgs], ?_⟩
  rw [processFile_valid now file o d hmin hmax hdur]
  exact (processSegmentsAndSummary_all_ok now file o _ hp hi).2 msg hsum

/-- C3 witness: the amended statement at a one-image live run and a concrete
four-segment storyboard run with failing summary. -/
theorem summary_failure_amended_witness :
    (generateSummary liveOneImageDemo (Except.error ("x"))).liveState = LiveState.FINISHED ∧
    (generateSummary liveOneImageDemo (Except.error ("x"))).summaryRef =
      some ("Summary generation failed.") ∧
    (generateSummary liveOneImageDemo (Except.error ("x"))).error =
      some ("Could not generate summary. You can still download the images.") ∧
    (processFile 3 ⟨2097152, "audio/mpeg"⟩ sbDemoOracle).state = StoryboardState.ERROR :=
  summary_failure_amended liveOneImageDemo ("x") (by decide) 3 ⟨2097152, "audio/mpeg"⟩
    sbDemoOracle 200 ("boom") (by norm_num [MIN_FILE_SIZE]) (by norm_num [MAX_FILE_SIZE]) rfl
    (fun r k => ⟨"p", rfl⟩) (fun k => ⟨"i", rfl⟩) rfl

/-- C4 counterexample: the appended lineage lines read `Filter: <s>` and
`Edit: <e>` without the square brackets the claim states. -/
theorem edit_lineage_bracket_cex :
    (handleEdit 1 editDemoState ("x") FilterType.anime (Except.ok ("img2"))).imageHistory.map
        ImageData.prompt = ["base", "base\n\n---\nFilter: Anime\nEdit: x"] ∧
    (handleEdit 1 editDemoState ("x") FilterType.anime (Except.ok ("img2"))).imageHistory.map
        ImageData.prompt ≠ ["base", "base\n\n---\n[Filter: Anime]\n[Edit: x]"] := by
  decide

/-- C4 amended: a successful edit of the selected entry appends one entry
whose prompt is the previous prompt, the separator, a `\nFilter: <s>` line
only when the style is not `unspecified`, and a `\nEdit: <e>` line only when
the edit text is non-empty (no square brackets), and selects the new
entry. -/
theorem edit_lineage_amended (now : Nat) (st : CreatorState) (e img : String) (f : FilterType)
    (i : Nat) (active : ImageData)
    (hidx : st.activeImageIndex = some i) (hget : st.imageHistory[i]? = some active) :
    (handleEdit now st e f (Except.ok img)).imageHistory =
      st.imageHistory ++ [⟨now, img,
        active.prompt ++ "\n\n---" ++
        (if f ≠ FilterType.unspecified then "\nFilter: " ++ filterTag f else "") ++
        (if e ≠ "" then "\nEdit: " ++ e else "")⟩] ∧
    (handleEdit now st e f (Except.ok img)).activeImageIndex = some st.imageHistory.length := by
  have hl : editLineage active.prompt e f =
      active.prompt ++ "\n\n---" ++
      (if f ≠ FilterType.unspecified then "\nFilter: " ++ filterTag f else "") ++
      (if e ≠ "" then "\nEdit: " ++ e else "") := by
    unfold editLineage
    split_ifs <;> simp only [String.append_assoc, String.append_empty]
  simp [handleEdit, hidx, hget, hl]

/-- C4 witness: the amended statement at a session holding one selected root
entry, with a non-default style and non-empty edit text. -/
theorem edit_lineage_amended_witness :
    (handleEdit 1 editDemoState ("y") FilterType.cartoon (Except.ok ("i2"))).imageHistory =
      editDemoState.imageHistory ++ [⟨1, "i2",
        ("base" : String) ++ "\n\n---" ++
        (if FilterType.cartoon ≠ FilterType.unspecified
          then "\nFilter: " ++ filterTag FilterType.cartoon else "") ++
        (if ("y" : String) ≠ "" then "\nEdit: " ++ "y" else "")⟩] ∧
    (handleEdit 1 editDemoState ("y") FilterType.cartoon (Except.ok ("i2"))).activeImageIndex =
      some editDemoState.imageHistory.length :=
  edit_lineage_amended 1 editDemoState ("y") ("i2") FilterType.cartoon 0 ⟨0, "img", "base"⟩ rfl rfl

/-- C5: live-capture tick processing is mutually exclusive — a tick that
fires while the in-flight flag is set changes nothing at all (no extraction,
no image, no state change), and over any run of the recording loop the
extracted blobs are pairwise disjoint, so no chunk of buffered audio is ever
included in two processing attempts. -/
theorem live_tick_mutual_exclusion (t : Nat) (evs : List LiveEv) (s : LiveSt)
    (h : s.isProcessing = true) :
    liveStep s LiveEv.tick = s ∧
    chunksDisjoint (liveRun (liveStart t) evs).extracted :=
  ⟨liveTick_busy s h, (liveInv_run (liveStart t) (liveInv_start t) evs).disj⟩

/-- C5 witness: the mutual-exclusion statement at a busy state and a concrete
two-tick trace. -/
theorem live_tick_mutual_exclusion_witness :
    liveStep liveBusyDemo LiveEv.tick = liveBusyDemo ∧
    chunksDisjoint (liveRun (liveStart 5) liveTwoTickTrace).extracted :=
  live_tick_mutual_exclusion 5 liveTwoTickTrace liveBusyDemo rfl

/-- C6: evaluating the recording loop on a run in which two consecutive
ticks each succeed shows that both images receive the filename
`image_1.jpeg` — the interval closure reads the image count captured when
recording started (the effect deps are `[liveState, interval]`), so the
1-based ordinal never advances and the second image is not named
`image_2.jpeg` as the claim (and the surrounding UI) intends. -/
theorem live_filename_stale_index :
    (liveRun (liveStart 5) liveTwoTickTrace).generatedImages.map LiveImageData.fileName =
      ["image_1.jpeg", "image_1.jpeg"] ∧
    (liveRun (liveStart 5) liveTwoTickTrace).generatedImages.map LiveImageData.fileName ≠
      ["image_1.jpeg", "image_2.jpeg"] := by
  decide

/-- C7: with no armed audio source and a non-empty trimmed prompt, a
successful generation resets the history to one selected root entry, and an
immediately following successful edit yields a history of length 2 whose
second prompt extends the full first prompt (the root prompt is a prefix,
witnessed by the lineage tail). -/
theorem create_then_edit (now1 now2 : Nat) (st : CreatorState) (p img1 img2 e : String)
    (f : FilterType) (oMusic : Except String String)
    (haudio : st.audioFile = none) (hptext : st.textPrompt = p) (hne : jsTrim p ≠ "") :
    (handleGeneration now1 st oMusic (Except.ok img1)).imageHistory = [⟨now1, img1, p⟩] ∧
    (handleGeneration now1 st oMusic (Except.ok img1)).activeImageIndex = some 0 ∧
    (handleEdit now2 (handleGeneration now1 st oMusic (Except.ok img1)) e f
        (Except.ok img2)).imageHistory.length = 2 ∧
    (handleEdit now2 (handleGeneration now1 st oMusic (Except.ok img1)) e f
        (Except.ok img2)).activeImageIndex = some 1 ∧
    ((handleEdit now2 (handleGeneration now1 st oMusic (Except.ok img1)) e f
        (Except.ok img2)).imageHistory.getD 0 ⟨0, "", ""⟩).prompt = p ∧
    ((handleEdit now2 (handleGeneration now1 st oMusic (Except.ok img1)) e f
        (Except.ok img2)).imageHistory.getD 1 ⟨0, "", ""⟩).prompt =
      ((handleEdit now2 (handleGeneration now1 st oMusic (Except.ok img1)) e f
          (Except.ok img2)).imageHistory.getD 0 ⟨0, "", ""⟩).prompt ++ editLineageTail e f := by
  have h1 : handleGeneration now1 st oMusic (Except.ok img1) =
      { st with error := none, imageHistory := [⟨now1, img1, p⟩],
                activeImageIndex := some 0, appState := AppState.IDLE } := by
    simp [handleGeneration, haudio, hptext, hne]
  rw [h1]
  have h2 : handleEdit now2
      { st with error := none, imageHistory := [⟨now1, img1, p⟩],
                activeImageIndex := some 0, appState := AppState.IDLE } e f (Except.ok img2) =
      { st with error := none,
                imageHistory := [⟨now1, img1, p⟩, ⟨now2, img2, editLineage p e f⟩],
                activeImageIndex := some 1, appState := AppState.IDLE } := by
    simp [handleEdit]
  rw [h2]
  exact ⟨rfl, rfl, rfl, rfl, rfl, editLineage_eq_append p e f⟩

/-- C7 witness: the statement at a concrete idle session, prompt, edit text
and style. -/
theorem create_then_edit_witness :
    (handleGeneration 1 idleDemoState (Except.error ("unused")) (Except.ok ("i1"))).imageHistory =
      [⟨1, "i1", "a sunny meadow"⟩] ∧
    (handleGeneration 1 idleDemoState (Except.error ("unused")) (Except.ok ("i1"))).activeImageIndex =
      some 0 ∧
    (handleEdit 2 (handleGeneration 1 idleDemoState (Except.error ("unused")) (Except.ok ("i1")))
        ("add rain") FilterType.anime (Except.ok ("i2"))).imageHistory.length = 2 ∧
    (handleEdit 2 (handleGeneration 1 idleDemoState (Except.error ("unused")) (Except.ok ("i1")))
        ("add rain") FilterType.anime (Except.ok ("i2"))).activeImageIndex = some 1 ∧
    ((handleEdit 2 (handleGeneration 1 idleDemoState (Except.error ("unused")) (Except.ok ("i1")))
        ("add rain") FilterType.anime (Except.ok ("i2"))).imageHistory.getD 0 ⟨0, "", ""⟩).prompt =
      "a sunny meadow" ∧
    ((handleEdit 2 (handleGeneration 1 idleDemoState (Except.error ("unused")) (Except.ok ("i1")))
        ("add rain") FilterType.anime (Except.ok ("i2"))).imageHistory.getD 1 ⟨0, "", ""⟩).prompt =
      ((handleEdit 2 (handleGeneration 1 idleDemoState (Except.error ("unused")) (Except.ok ("i1")))
          ("add rain") FilterType.anime (Except.ok ("i2"))).imageHistory.getD 0 ⟨0, "", ""⟩).prompt ++
        editLineageTail ("add rain") FilterType.anime :=
  create_then_edit 1 2 idleDemoState ("a sunny meadow") ("i1") ("i2") ("add rain")
    FilterType.anime (Except.error ("unused")) rfl rfl (by decide)

/-- C8 counterexample: for a 22020096-byte (21 MB) file the storyboard error
message is a constant that reports only the bound — it contains neither the
byte count nor the megabyte rendering of the offending size, refuting the
claim that both paths report the offending size. -/
theorem size_message_cex :
    (processFile 0 ⟨22020096, "audio/mpeg"⟩ sbDemoOracle).networkCalls = 0 ∧
    (processFile 0 ⟨22020096, "audio/mpeg"⟩ sbDemoOracle).error =
      some ("File is too large. Maximum size is 20MB.") ∧
    strContains ((processFile 0 ⟨22020096, "audio/mpeg"⟩ sbDemoOracle).error.getD "")
      ("22020096") = false ∧
    strContains ((processFile 0 ⟨22020096, "audio/mpeg"⟩ sbDemoOracle).error.getD "")
      ("21") = false := by
  decide

/-- C8 amended: every oversized file fails both paths before any network
call: the storyboard sets `ERROR` with a message reporting only the bound
(and undersized files likewise), while the single-image file-selection and
recording handlers reject without delivering the file, with messages
reporting both the offending size in MB and the bound. -/
theorem size_validation_amended (now : Nat) (file small : AudioSrc) (o : SbOracle)
    (hbig : MAX_FILE_SIZE < file.size) (hsmall : small.size < MIN_FILE_SIZE) :
    processFile now file o =
      { state := StoryboardState.ERROR,
        error := some ("File is too large. Maximum size is " ++ toString MAX_FILE_SIZE_MB ++ "MB."),
        images := [], summary := "", networkCalls := 0 } ∧
    processFile now small o =
      { state := StoryboardState.ERROR,
        error := some ("File is too small. Minimum size is 1MB."),
        images := [], summary := "", networkCalls := 0 } ∧
    audioInputHandleFileChange file =
      { error := some ("File is too large (" ++ mbString2 file.size ++ "MB). Max size is " ++
          toString MAX_FILE_SIZE_MB ++ "MB."),
        selected := none } ∧
    audioInputHandleRecordingDone file =
      { error := some ("Recording is too large (" ++ mbString2 file.size ++ "MB). Max size is " ++
          toString MAX_FILE_SIZE_MB ++ "MB."),
        selected := none } := by
  have hns : ¬ file.size < MIN_FILE_SIZE := by
    simp only [MAX_FILE_SIZE] at hbig
    simp only [MIN_FILE_SIZE]
    omega
  refine ⟨?_, ?_, ?_, ?_⟩
  · simp [processFile, hns, hbig]
  · simp [processFile, hsmall]
  · simp [audioInputHandleFileChange, hbig]
  · simp [audioInputHandleRecordingDone, hbig]

/-- C8 witness: the amended statement at a 22020097-byte file and a
1000-byte file. -/
theorem size_validation_amended_witness :
    processFile 0 ⟨22020097, "audio/mpeg"⟩ sbDemoOracle =
      { state := StoryboardState.ERROR,
        error := some ("File is too large. Maximum size is " ++ toString MAX_FILE_SIZE_MB ++ "MB."),
        images := [], summary := "", networkCalls := 0 } ∧
    processFile 0 ⟨1000, "audio/mpeg"⟩ sbDemoOracle =
      { state := StoryboardState.ERROR,
        error := some ("File is too small. Minimum size is 1MB."),
        images := [], summary := "", networkCalls := 0 } ∧
    audioInputHandleFileChange ⟨22020097, "audio/mpeg"⟩ =
      { error := some ("File is too large (" ++ mbString2 22020097 ++ "MB). Max size is " ++
          toString MAX_FILE_SIZE_MB ++ "MB."),
        selected := none } ∧
    audioInputHandleRecordingDone ⟨22020097, "audio/mpeg"⟩ =
      { error := some ("Recording is too large (" ++ mbString2 22020097 ++ "MB). Max size is " ++
          toString MAX_FILE_SIZE_MB ++ "MB."),
        selected := none } :=
  size_validation_amended 0 ⟨22020097, "audio/mpeg"⟩ ⟨1000, "audio/mpeg"⟩ sbDemoOracle
    (by norm_num [MAX_FILE_SIZE]) (by norm_num [MIN_FILE_SIZE])

/-- C9: a failure of the in-flight interpretation or generation is
swallowed: no image is appended, the error message and the pipeline state
are unchanged, the in-flight flag is released, and a subsequent tick with a
large-enough buffer extracts and processes normally. -/
theorem live_failure_swallowed (s : LiveSt) (blob : List Chunk) (idx now : Nat) (e : String)
    (h : s.inflight = some (blob, idx)) :
    (liveComplete s now (Except.error e)).generatedImages = s.generatedImages ∧
    (liveComplete s now (Except.error e)).error = s.error ∧
    (liveComplete s now (Except.error e)).liveState = s.liveState ∧
    (liveComplete s now (Except.error e)).isProcessing = false ∧
    (liveComplete s now (Except.error e)).inflight = none ∧
    (liveComplete s now (Except.error e)).buffer = s.buffer ∧
    (1024 ≤ blobSize s.buffer →
      liveTick (liveComplete s now (Except.error e)) =
        { liveComplete s now (Except.error e) with
            buffer := [], isProcessing := true,
            inflight := some (s.buffer, s.snapshotLen + 1),
            extracted := s.extracted ++ [s.buffer] }) := by
  have hc : liveComplete s now (Except.error e) =
      { s with isProcessing := false, inflight := none } := by
    unfold liveComplete
    rw [h]
  rw [hc]
  refine ⟨rfl, rfl, rfl, rfl, rfl, rfl, ?_⟩
  intro hsz
  have hb : s.buffer ≠ [] := by
    intro hnil
    rw [hnil] at hsz
    simp [blobSize] at hsz
  unfold liveTick
  rw [if_neg (by simp [hb])]
  dsimp only
  rw [if_neg (by omega)]

/-- C9 witness: the statement at a concrete busy state with a 2000-byte
buffered chunk, the size hypothesis of the final conjunct discharged. -/
theorem live_failure_swallowed_witness :
    (liveComplete liveBusyDemo 9 (Except.error ("boom"))).generatedImages =
      liveBusyDemo.generatedImages ∧
    (liveComplete liveBusyDemo 9 (Except.error ("boom"))).error = liveBusyDemo.error ∧
    (liveComplete liveBusyDemo 9 (Except.error ("boom"))).liveState = liveBusyDemo.liveState ∧
    (liveComplete liveBusyDemo 9 (Except.error ("boom"))).isProcessing = false ∧
    (liveComplete liveBusyDemo 9 (Except.error ("boom"))).inflight = none ∧
    (liveComplete liveBusyDemo 9 (Except.error ("boom"))).buffer = liveBusyDemo.buffer ∧
    liveTick (liveComplete liveBusyDemo 9 (Except.error ("boom"))) =
      { liveComplete liveBusyDemo 9 (Except.error ("boom")) with
          buffer := [], isProcessing := true,
          inflight := some (liveBusyDemo.buffer, liveBusyDemo.snapshotLen + 1),
          extracted := liveBusyDemo.extracted ++ [liveBusyDemo.buffer] } :=
  ⟨(live_failure_swallowed liveBusyDemo [⟨0, 2048⟩] 1 9 ("boom") rfl).1,
   (live_failure_swallowed liveBusyDemo [⟨0, 2048⟩] 1 9 ("boom") rfl).2.1,
   (live_failure_swallowed liveBusyDemo [⟨0, 2048⟩] 1 9 ("boom") rfl).2.2.1,
   (live_failure_swallowed liveBusyDemo [⟨0, 2048⟩] 1 9 ("boom") rfl).2.2.2.1,
   (live_failure_swallowed liveBusyDemo [⟨0, 2048⟩] 1 9 ("boom") rfl).2.2.2.2.1,
   (live_failure_swallowed liveBusyDemo [⟨0, 2048⟩] 1 9 ("boom") rfl).2.2.2.2.2.1,
   (live_failure_swallowed liveBusyDemo [⟨0, 2048⟩] 1 9 ("boom") rfl).2.2.2.2.2.2 (by decide)⟩

/-- C10: a tick skipped because the previous processing is in flight leaves
the whole pipeline state unchanged (in particular the buffer), and after any
further non-tick events the buffer is the skipped buffer plus newly arrived
chunks, so the next eligible tick extracts a blob containing all of the
skipped audio. -/
theorem live_skip_frame (s : LiveSt) (evs : List LiveEv)
    (hbusy : s.isProcessing = true) (hevs : ∀ e ∈ evs, isTickEv e = false) :
    liveStep s LiveEv.tick = s ∧
    (liveRun s evs).buffer = s.buffer ++ (liveRun s evs).buffer.drop s.buffer.length ∧
    ((liveRun s evs).isProcessing = false →
      1024 ≤ blobSize ((liveRun s evs).buffer) →
      liveStep (liveRun s evs) LiveEv.tick =
        { liveRun s evs with
            buffer := [], isProcessing := true,
            inflight := some ((liveRun s evs).buffer, (liveRun s evs).snapshotLen + 1),
            extracted := (liveRun s evs).extracted ++ [(liveRun s evs).buffer] }) := by
  obtain ⟨newc, h1, h2, h3⟩ := liveRun_no_tick_buffer s evs hevs
  refine ⟨liveTick_busy s hbusy, ?_, ?_⟩
  · rw [h1]
    simp [List.drop_left]
  · intro hproc hsz
    have hb : (liveRun s evs).buffer ≠ [] := by
      intro hnil
      rw [hnil] at hsz
      simp [blobSize] at hsz
    show liveTick (liveRun s evs) = _
    unfold liveTick
    rw [if_neg (by simp [hproc, hb])]
    dsimp only
    rw [if_neg (by omega)]

/-- C10 witness: the statement at a busy state followed by one recorder
delivery and the failing completion of the in-flight processing, with both
hypotheses of the final conjunct discharged. -/
theorem live_skip_frame_witness :
    liveStep liveBusyDemo LiveEv.tick = liveBusyDemo ∧
    (liveRun liveBusyDemo liveSkipDemoEvs).buffer =
      liveBusyDemo.buffer ++
        (liveRun liveBusyDemo liveSkipDemoEvs).buffer.drop liveBusyDemo.buffer.length ∧
    liveStep (liveRun liveBusyDemo liveSkipDemoEvs) LiveEv.tick =
      { liveRun liveBusyDemo liveSkipDemoEvs with
          buffer := [], isProcessing := true,
          inflight := some ((liveRun liveBusyDemo liveSkipDemoEvs).buffer,
            (liveRun liveBusyDemo liveSkipDemoEvs).snapshotLen + 1),
          extracted := (liveRun liveBusyDemo liveSkipDemoEvs).extracted ++
            [(liveRun liveBusyDemo liveSkipDemoEvs).buffer] } :=
  ⟨(live_skip_frame liveBusyDemo liveSkipDemoEvs rfl (by decide)).1,
   (live_skip_frame liveBusyDemo liveSkipDemoEvs rfl (by decide)).2.1,
   (live_skip_frame liveBusyDemo liveSkipDemoEvs rfl (by decide)).2.2 (by decide) (by decide)⟩
